import Mathlib

/-!
Shallow embedding of the Fact Governance Engine of the solicitor-brain
repository (`backend/services/fact_service.py`, `backend/utils/compliance.py`,
`backend/api/facts.py`, configuration from `backend/config.py`), together with
theorems settling the specification claims about it.

Python floats are modelled as exact rationals (`ℚ`), datetimes as natural
numbers, UUIDs as natural numbers, and the SQLAlchemy session/database as an
explicit `Store` value threaded through every operation.  A Python function
that raises `ValueError` is modelled as returning `Except FactError _`
together with the post-state.
-/

namespace SolicitorBrain

/-- Policy configuration, from `backend/config.py` (`Settings`): the fields
read by the fact service and the compliance checker. -/
structure Settings where
  citation_required : Bool
  min_citation_confidence : ℚ
  allowed_citation_domains : List String
  primary_model : String
deriving DecidableEq

/-- A citation dictionary as handled by `check_citation` /
`_calculate_confidence`: the code accesses the keys `confidence` (default `0`)
and `source` (default `""`) via `dict.get`, so both are optional here. -/
structure Citation where
  source : Option String
  confidence : Option ℚ
deriving DecidableEq

/-- Python's substring containment `domain in source` on strings. -/
def strContains (s sub : String) : Bool :=
  decide (sub.toList <:+: s.toList)

/-- Python truthiness of an optional list (`None` and `[]` are falsy). -/
def listTruthy {α : Type} (l : Option (List α)) : Bool :=
  !(l.getD []).isEmpty

/-- Python truthiness of an optional string (`None` and `""` are falsy). -/
def strTruthy (s : Option String) : Bool :=
  !(s.getD "").isEmpty

/-- From `backend/utils/compliance.py`, `check_citation(text, citations)`.
The `text` argument is used only for logging in the source.  The two Python
loops with early `return False` are rendered as `List.any` over the same
predicates; metric recording (`record_citation_check`) has no effect on the
returned value and is omitted. -/
def check_citation (s : Settings) (_text : String) (citations : List Citation) : Bool :=
  if !s.citation_required then true
  else if citations.isEmpty then false
  else if citations.any (fun c => decide (c.confidence.getD 0 < s.min_citation_confidence)) then
    false
  else if citations.any (fun c =>
      !(s.allowed_citation_domains.any (fun domain => strContains (c.source.getD "") domain))) then
    false
  else true

/-- From `fact_service.py`, `FactService._calculate_confidence`: mean of the
citations' `confidence` values (`dict.get("confidence", 0.0)`), `0.0` for an
empty/`None` list. -/
def calculate_confidence (citations : List Citation) : ℚ :=
  if citations.isEmpty then 0
  else ((citations.map (fun c => c.confidence.getD 0)).sum) / citations.length

/-- The `CaseFact` row.  The column set follows the fields the fact service
reads and writes plus §3 of the spec; `backend/models/case_facts.py` itself is
not in the tree, so (Modelled from the spec:) the column default
`sign_off_status = "suggested"` and the absence of any other column default
are taken from the spec's data model. -/
structure CaseFact where
  id : Nat
  case_id : Nat
  fact_type : String
  fact_text : String
  fact_date : Option Nat
  source_document_id : Option Nat
  source_page : Option String
  source_text : Option String
  extracted_by_ai : Bool
  extraction_model : Option String
  extraction_timestamp : Option Nat
  citations : Option (List Citation)
  importance : String
  category : Option String
  tags : Option (List String)
  verification_status : String
  verified_by : Option String
  verified_at : Option Nat
  confidence_score : ℚ
  sign_off_status : String
  sign_off_by : Option String
  sign_off_at : Option Nat
  amendment_reason : Option String
  created_at : Nat
deriving DecidableEq

/-- A `FactRelation` row as created by `_check_fact_relations`. -/
structure FactRelation where
  fact_id : Nat
  related_fact_id : Nat
  relation_type : String
  confidence : ℚ
deriving DecidableEq

/-- The persistent state visible to the fact service: the `Case` table
(existence only), the `CaseFact` and `FactRelation` tables, the
hallucination-block metric counter, the clock (`datetime.now`), and the id
generator for newly inserted rows. -/
structure Store where
  cases : List Nat
  facts : List CaseFact
  relations : List FactRelation
  hallucination_blocks : Nat
  now : Nat
  next_id : Nat
deriving DecidableEq

/-- Error kinds; the source raises `ValueError` with distinct messages for
each of these (spec §7 taxonomy). -/
inductive FactError where
  | caseNotFound
  | citationPolicyViolation
  | factNotFound
  | invalidStatus
deriving DecidableEq

/-- From `fact_service.py`, `FactService._facts_may_conflict`. -/
def facts_may_conflict (fact1 fact2 : CaseFact) : Bool :=
  if fact1.fact_type ≠ fact2.fact_type then false
  else if fact1.fact_type = "date" ∧ fact1.fact_date.isSome ∧ fact2.fact_date.isSome
      ∧ fact1.category = fact2.category ∧ fact1.fact_date ≠ fact2.fact_date then true
  else if fact1.fact_type = "party" ∧ fact1.category = fact2.category
      ∧ fact1.fact_text ≠ fact2.fact_text then true
  else false

/-- From `fact_service.py`, `FactService._determine_relation`. -/
def determine_relation (fact1 fact2 : CaseFact) : Option String :=
  if facts_may_conflict fact1 fact2 then some "contradicts" else none

/-- The query inside `_check_fact_relations`: facts of the same case, with a
different id, the same `fact_type`, and not sign-off-rejected. -/
def similar_facts (facts : List CaseFact) (fact : CaseFact) : List CaseFact :=
  facts.filter (fun f => decide (f.case_id = fact.case_id ∧ f.id ≠ fact.id
    ∧ f.fact_type = fact.fact_type ∧ f.sign_off_status ≠ "rejected"))

/-- From `fact_service.py`, `FactService._check_fact_relations`: the relation
rows added to the session for a fresh fact (`relation_type` is truthy exactly
when `_determine_relation` returns `"contradicts"`). -/
def check_fact_relations (facts : List CaseFact) (fact : CaseFact) : List FactRelation :=
  (similar_facts facts fact).filterMap (fun similar =>
    (determine_relation fact similar).map (fun rt =>
      { fact_id := fact.id, related_fact_id := similar.id,
        relation_type := rt, confidence := 0.8 }))

/-- Digit characters, `\d` of the regexes in `_extract_date` (restricted to
ASCII digits, the only digits relevant to the date formats involved). -/
def isDigitChar (c : Char) : Bool := c.isDigit

/-- Consume exactly `n` digit characters, returning them and the rest. -/
def matchNum (n : Nat) (cs : List Char) : Option (List Char × List Char) :=
  let pre := cs.take n
  if pre.length = n ∧ pre.all isDigitChar then some (pre, cs.drop n) else none

/-- Consume one separator character of the regex class slash-or-dash. -/
def matchSep : List Char → Option (Char × List Char)
  | c :: rest => if c = '/' ∨ c = '-' then some (c, rest) else none
  | [] => none

/-- One backtracking alternative of the first regex of `_extract_date`
(one-or-two digits, slash-or-dash, one-or-two digits, slash-or-dash, four
digits) anchored at the start of `cs`, with the two `\d{1,2}` groups fixed to
widths `n1` and `n2`; returns the matched text (group 0). -/
def tryCombo (n1 n2 : Nat) (cs : List Char) : Option (List Char) :=
  match matchNum n1 cs with
  | none => none
  | some (g1, r1) =>
    match matchSep r1 with
    | none => none
    | some (s1, r2) =>
      match matchNum n2 r2 with
      | none => none
      | some (g2, r3) =>
        match matchSep r3 with
        | none => none
        | some (s2, r4) =>
          match matchNum 4 r4 with
          | none => none
          | some (g3, _) => some (g1 ++ [s1] ++ g2 ++ [s2] ++ g3)

/-- Match the first date-pattern regex at the start of `cs`; greedy `\d{1,2}`
groups try width 2 before width 1, in regex backtracking order. -/
def matchP1At (cs : List Char) : Option (List Char) :=
  tryCombo 2 2 cs <|> tryCombo 2 1 cs <|> tryCombo 1 2 cs <|> tryCombo 1 1 cs

/-- `re.search` of the first pattern: leftmost match wins. -/
def searchP1 : List Char → Option (List Char)
  | [] => none
  | c :: cs =>
    match matchP1At (c :: cs) with
    | some m => some m
    | none => searchP1 cs

/-- Month names of the second date-pattern regex, in alternation order. -/
def monthNames : List String :=
  ["January", "February", "March", "April", "May", "June", "July", "August",
   "September", "October", "November", "December"]

/-- Case-insensitive match of one of the month-name alternatives at the start
of `cs` (the regex is compiled with `re.IGNORECASE`). -/
def matchMonthAt (cs : List Char) : Option (List Char) :=
  (monthNames.map String.toList).firstM (fun name =>
    if (cs.take name.length).map Char.toLower = name.map Char.toLower then
      some (cs.take name.length)
    else none)

/-- Consume one-or-more whitespace characters (`\s+`, greedy). -/
def matchWs (cs : List Char) : Option (List Char × List Char) :=
  let pre := cs.takeWhile Char.isWhitespace
  if pre.isEmpty then none else some (pre, cs.dropWhile Char.isWhitespace)

/-- One alternative of `(\d{1,2})\s+(Month)\s+(\d{4})` anchored at `cs` with
the leading `\d{1,2}` fixed to width `n1`. -/
def tryComboP2 (n1 : Nat) (cs : List Char) : Option (List Char) :=
  match matchNum n1 cs with
  | none => none
  | some (g1, r1) =>
    match matchWs r1 with
    | none => none
    | some (w1, r2) =>
      match matchMonthAt r2 with
      | none => none
      | some name =>
        match matchWs (r2.drop name.length) with
        | none => none
        | some (w2, r4) =>
          match matchNum 4 r4 with
          | none => none
          | some (g3, _) => some (g1 ++ w1 ++ name ++ w2 ++ g3)

/-- Match the second date-pattern regex at the start of `cs`. -/
def matchP2At (cs : List Char) : Option (List Char) :=
  tryComboP2 2 cs <|> tryComboP2 1 cs

/-- `re.search` of the second pattern: leftmost match wins. -/
def searchP2 : List Char → Option (List Char)
  | [] => none
  | c :: cs =>
    match matchP2At (c :: cs) with
    | some m => some m
    | none => searchP2 cs

/-- Numeric value of a digit string. -/
def digitsToNat (l : List Char) : Nat :=
  l.foldl (fun a c => a * 10 + (c.toNat - 48)) 0

/-- Gregorian leap-year rule, as used by Python `datetime`. -/
def isLeap (y : Nat) : Bool := y % 4 = 0 ∧ (y % 100 ≠ 0 ∨ y % 400 = 0)

/-- Days in a month, as validated by Python `datetime`. -/
def daysInMonth (m y : Nat) : Nat :=
  if m = 2 then (if isLeap y then 29 else 28)
  else if m = 4 ∨ m = 6 ∨ m = 9 ∨ m = 11 then 30
  else 31

/-- Encode a calendar date as a single natural number (injective on the valid
range, which is all the embedding needs of a `datetime` value). -/
def encodeDate (d m y : Nat) : Nat := y * 10000 + m * 100 + d

/-- `datetime.strptime(text, "%d/%m/%Y")`, returning the parsed date or
`none` on the `ValueError` the source swallows: the text must be exactly
one-or-two digit day, `/`, one-or-two digit month, `/`, four-digit year, and
denote a valid Gregorian date. -/
def strptimeDMY (cs : List Char) : Option Nat :=
  match cs.splitOn '/' with
  | [ds, ms, ys] =>
    if 1 ≤ ds.length ∧ ds.length ≤ 2 ∧ ds.all isDigitChar
        ∧ 1 ≤ ms.length ∧ ms.length ≤ 2 ∧ ms.all isDigitChar
        ∧ ys.length = 4 ∧ ys.all isDigitChar then
      let d := digitsToNat ds
      let m := digitsToNat ms
      let y := digitsToNat ys
      if 1 ≤ m ∧ m ≤ 12 ∧ 1 ≤ d ∧ d ≤ daysInMonth m y ∧ 1 ≤ y then
        some (encodeDate d m y)
      else none
    else none
  | _ => none

/-- From `fact_service.py`, `FactService._extract_date`: search the two date
patterns in order; on a match, attempt `strptime("%d/%m/%Y")` on the matched
text and fall through to the next pattern when parsing fails; `none` when
nothing parses. -/
def extract_date (text : String) : Option Nat :=
  match searchP1 text.toList >>= strptimeDMY with
  | some d => some d
  | none => searchP2 text.toList >>= strptimeDMY

/-- Insert into a list sorted by the boolean comparator `le` (used to model
the SQL `ORDER BY` clauses; only the ordering, not stability, is prescribed
by the store). -/
def insertLe (le : CaseFact → CaseFact → Bool) (f : CaseFact) : List CaseFact → List CaseFact
  | [] => [f]
  | g :: gs => if le f g then f :: g :: gs else g :: insertLe le f gs

/-- Insertion sort by the boolean comparator `le`. -/
def sortByLe (le : CaseFact → CaseFact → Bool) : List CaseFact → List CaseFact
  | [] => []
  | f :: fs => insertLe le f (sortByLe le fs)

/-- From `fact_service.py`, `FactService.get_case_facts`: conjunctive
filtering (each optional filter is applied when truthy, and rejected facts
are excluded unless `include_rejected`), ordered by `created_at` descending. -/
def get_case_facts (st : Store) (case_id : Nat) (fact_type : Option String)
    (verification_status : Option String) (importance : Option String)
    (include_rejected : Bool) : List CaseFact :=
  sortByLe (fun a b => decide (b.created_at ≤ a.created_at))
    (st.facts.filter (fun f => decide (f.case_id = case_id
      ∧ (strTruthy fact_type = true → f.fact_type = fact_type.getD "")
      ∧ (strTruthy verification_status = true →
          f.verification_status = verification_status.getD "")
      ∧ (strTruthy importance = true → f.importance = importance.getD "")
      ∧ (include_rejected = false → f.sign_off_status ≠ "rejected"))))

/-- The nested loop of `find_conflicting_facts`: for each position `i`, pair
`facts[i]` with every later `facts[j]` that `_facts_may_conflict` flags. -/
def conflict_scan : List CaseFact → List (CaseFact × CaseFact)
  | [] => []
  | f :: fs =>
    (fs.filter (fun g => facts_may_conflict f g)).map (fun g => (f, g))
      ++ conflict_scan fs

/-- From `fact_service.py`, `FactService.find_conflicting_facts`: a pairwise
scan over `get_case_facts(case_id)` (default arguments, so rejected facts are
excluded); the session state is returned unchanged — the method performs no
`add`/`commit`. -/
def find_conflicting_facts (st : Store) (case_id : Nat) :
    List (CaseFact × CaseFact) × Store :=
  (conflict_scan (get_case_facts st case_id none none none false), st)

/-- Sort key for `ORDER BY fact_date` over a nullable column (NULLs first). -/
def date_key : Option Nat → Nat
  | none => 0
  | some d => d + 1

/-- From `fact_service.py`, `FactService.get_critical_dates`. -/
def get_critical_dates (st : Store) (case_id : Nat) : List CaseFact :=
  sortByLe (fun a b => decide (date_key a.fact_date ≤ date_key b.fact_date))
    (st.facts.filter (fun f => decide (f.case_id = case_id ∧ f.fact_type = "date"
      ∧ (f.importance = "critical" ∨ f.importance = "high")
      ∧ f.sign_off_status ≠ "rejected")))

/-- From `fact_service.py`, `FactService.verify_fact`. -/
def verify_fact (st : Store) (fact_id : Nat) (verification_status : String)
    (user_id : String) (amendment_reason : Option String) :
    Except FactError CaseFact × Store :=
  match st.facts.find? (fun f => decide (f.id = fact_id)) with
  | none => (.error .factNotFound, st)
  | some fact =>
    if verification_status ∉ (["verified", "disputed"] : List String) then
      (.error .invalidStatus, st)
    else
      let fact' : CaseFact :=
        { fact with
            verification_status := verification_status
            verified_by := some user_id
            verified_at := some st.now
            amendment_reason :=
              if strTruthy amendment_reason then amendment_reason
              else fact.amendment_reason }
      (.ok fact',
        { st with facts := st.facts.map (fun f => if f.id = fact_id then fact' else f) })

/-- From `fact_service.py`, `FactService.sign_off_fact`. -/
def sign_off_fact (st : Store) (fact_id : Nat) (sign_off_status : String)
    (user_id : String) (amendment_reason : Option String) :
    Except FactError CaseFact × Store :=
  match st.facts.find? (fun f => decide (f.id = fact_id)) with
  | none => (.error .factNotFound, st)
  | some fact =>
    if sign_off_status ∉ (["accepted", "amended", "rejected"] : List String) then
      (.error .invalidStatus, st)
    else
      let fact' : CaseFact :=
        { fact with
            sign_off_status := sign_off_status
            sign_off_by := some user_id
            sign_off_at := some st.now
            amendment_reason :=
              if strTruthy amendment_reason then amendment_reason
              else fact.amendment_reason }
      (.ok fact',
        { st with facts := st.facts.map (fun f => if f.id = fact_id then fact' else f) })

/-- From `fact_service.py`, `FactService.save_fact`.  The citation gate's two
nested `if`s (`extracted_by_ai and settings.citation_required`, then
`not citations or not check_citation(...)`) are flattened into one condition;
on rejection the hallucination-block counter is bumped and nothing else
changes.  On success the new fact row and the relation rows produced by
`_check_fact_relations` are committed together (single `commit()` after the
`add`s). -/
def save_fact (s : Settings) (st : Store) (case_id : Nat) (fact_text fact_type : String)
    (source_document_id : Option Nat) (source_page source_text : Option String)
    (citations : Option (List Citation)) (extracted_by_ai : Bool) (importance : String)
    (category : Option String) (tags : Option (List String)) (user_id : Option String) :
    Except FactError CaseFact × Store :=
  if case_id ∉ st.cases then (.error .caseNotFound, st)
  else if extracted_by_ai = true ∧ s.citation_required = true
      ∧ (listTruthy citations = false
        ∨ check_citation s fact_text (citations.getD []) = false) then
    (.error .citationPolicyViolation,
      { st with hallucination_blocks := st.hallucination_blocks + 1 })
  else
    let fact : CaseFact :=
      { id := st.next_id
        case_id := case_id
        fact_type := fact_type
        fact_text := fact_text
        fact_date := if fact_type = "date" then extract_date fact_text else none
        source_document_id := source_document_id
        source_page := source_page
        source_text := source_text
        extracted_by_ai := extracted_by_ai
        extraction_model := if extracted_by_ai then some s.primary_model else none
        extraction_timestamp := if extracted_by_ai then some st.now else none
        citations := citations
        importance := importance
        category := category
        tags := tags
        verification_status := if extracted_by_ai then "unverified" else "verified"
        verified_by := if extracted_by_ai then none else user_id
        verified_at := if extracted_by_ai then none else some st.now
        confidence_score :=
          if listTruthy citations then calculate_confidence (citations.getD []) else 0
        sign_off_status := "suggested"
        sign_off_by := none
        sign_off_at := none
        amendment_reason := none
        created_at := st.now }
    (.ok fact,
      { st with
          facts := st.facts ++ [fact]
          relations := st.relations ++ check_fact_relations st.facts fact
          next_id := st.next_id + 1 })

/-- One candidate dictionary of `bulk_extract_facts`; the mandatory `"text"`
key is a plain field, every key read with `dict.get` is optional. -/
structure FactData where
  text : String
  ftype : Option String
  page : Option String
  source_text : Option String
  citations : Option (List Citation)
  importance : Option String
  category : Option String
  tags : Option (List String)
deriving DecidableEq

/-- The candidate loop of `FactService.bulk_extract_facts`: skip candidates
with falsy citations, call `save_fact` with `extracted_by_ai=True`, append on
success, and swallow any `ValueError` (`except ValueError: continue`). -/
def bulk_extract_go (s : Settings) (case_id document_id : Nat) :
    List FactData → Store → List CaseFact × Store
  | [], st => ([], st)
  | fd :: rest, st =>
    if listTruthy fd.citations = false then
      bulk_extract_go s case_id document_id rest st
    else
      match save_fact s st case_id fd.text (fd.ftype.getD "general") (some document_id)
          fd.page fd.source_text fd.citations true (fd.importance.getD "medium")
          fd.category (some (fd.tags.getD [])) none with
      | (.ok fact, st') =>
        let r := bulk_extract_go s case_id document_id rest st'
        (fact :: r.1, r.2)
      | (.error _, st') => bulk_extract_go s case_id document_id rest st'

/-- From `fact_service.py`, `FactService.bulk_extract_facts`. -/
def bulk_extract_facts (s : Settings) (st : Store) (case_id document_id : Nat)
    (extracted_facts : List FactData) : List CaseFact × Store :=
  bulk_extract_go s case_id document_id extracted_facts st

/-- Response shape of the `bulk-extract` endpoint in `backend/api/facts.py`:
a background acknowledgement for more than ten candidates, otherwise the
synchronous `{extracted, failed, facts}` payload. -/
inductive BulkResponse where
  | background : Nat → BulkResponse
  | sync : Nat → Nat → List CaseFact → BulkResponse
deriving DecidableEq

/-- From `backend/api/facts.py`, `bulk_extract_facts` route: for at most ten
candidates the service call runs synchronously and `failed` is reported as
`len(extraction_data.facts) - len(facts)`; for more than ten the work is only
scheduled, so the store is unchanged at response time. -/
def api_bulk_extract_facts (s : Settings) (st : Store) (case_id document_id : Nat)
    (facts : List FactData) : BulkResponse × Store :=
  if facts.length > 10 then (.background facts.length, st)
  else
    let r := bulk_extract_facts s st case_id document_id facts
    (.sync r.1.length (facts.length - r.1.length) r.1, r.2)

/-! ### Helper lemmas -/

theorem listTruthy_eq_false {α : Type} (l : Option (List α)) :
    listTruthy l = false ↔ l.getD [] = [] := by
  unfold listTruthy
  cases h : (l.getD []) <;> simp [h]

theorem check_citation_false_iff (s : Settings) (t : String) (cs : List Citation)
    (henf : s.citation_required = true) :
    check_citation s t cs = false ↔
      cs = [] ∨ (∃ c ∈ cs, c.confidence.getD 0 < s.min_citation_confidence)
        ∨ (∃ c ∈ cs, ∀ d ∈ s.allowed_citation_domains,
            strContains (c.source.getD "") d = false) := by
  unfold check_citation
  rw [henf]
  simp only [Bool.not_true, Bool.false_eq_true, if_false]
  split_ifs with h1 h2 h3
  · simp only [List.isEmpty_iff] at h1
    simp [h1]
  · simp only [List.any_eq_true, decide_eq_true_eq] at h2
    simp only [eq_self_iff_true, true_iff]
    exact Or.inr (Or.inl h2)
  · simp only [List.any_eq_true, Bool.not_eq_true', List.any_eq_false,
      Bool.not_eq_true] at h3
    simp only [eq_self_iff_true, true_iff]
    exact Or.inr (Or.inr h3)
  · simp only [Bool.true_eq_false, false_iff, not_or]
    refine ⟨fun hnil => h1 (by simp [hnil]), ?_, ?_⟩
    · rintro ⟨c, hc, hlow⟩
      exact h2 (List.any_eq_true.mpr ⟨c, hc, decide_eq_true hlow⟩)
    · rintro ⟨c, hc, hbad⟩
      refine h3 (List.any_eq_true.mpr ⟨c, hc, ?_⟩)
      simp only [Bool.not_eq_true', List.any_eq_false, Bool.not_eq_true]
      intro d hd
      exact hbad d hd

theorem facts_may_conflict_same_type {fact1 fact2 : CaseFact}
    (h : facts_may_conflict fact1 fact2 = true) : fact1.fact_type = fact2.fact_type := by
  unfold facts_may_conflict at h
  split_ifs at h with h1 h2 h3
  · exact not_not.mp h1
  · exact not_not.mp h1

theorem conflict_iff_aux (fact1 fact2 : CaseFact) :
    facts_may_conflict fact1 fact2 = true ↔
      (fact1.fact_type = fact2.fact_type ∧
        ((fact1.fact_type = "date" ∧ fact1.fact_date.isSome ∧ fact2.fact_date.isSome
            ∧ fact1.category = fact2.category ∧ fact1.fact_date ≠ fact2.fact_date)
          ∨ (fact1.fact_type = "party" ∧ fact1.category = fact2.category
            ∧ fact1.fact_text ≠ fact2.fact_text))) := by
  unfold facts_may_conflict
  split_ifs with h1 h2 h3
  · simp only [Bool.false_eq_true, false_iff]
    rintro ⟨ht, _⟩
    exact h1 ht
  · simp only [eq_self_iff_true, true_iff]
    exact ⟨not_not.mp h1, Or.inl h2⟩
  · simp only [eq_self_iff_true, true_iff]
    exact ⟨not_not.mp h1, Or.inr h3⟩
  · simp only [Bool.false_eq_true, false_iff]
    rintro ⟨_, hd | hp⟩
    · exact h2 hd
    · exact h3 hp

theorem facts_may_conflict_comm (fact1 fact2 : CaseFact) :
    facts_may_conflict fact1 fact2 = facts_may_conflict fact2 fact1 := by
  rw [Bool.eq_iff_iff, conflict_iff_aux, conflict_iff_aux]
  constructor
  · rintro ⟨ht, ⟨hty, d1, d2, hcat, hne⟩ | ⟨hty, hcat, hne⟩⟩
    · exact ⟨ht.symm, Or.inl ⟨ht.symm.trans hty, d2, d1, hcat.symm, fun h => hne h.symm⟩⟩
    · exact ⟨ht.symm, Or.inr ⟨ht.symm.trans hty, hcat.symm, fun h => hne h.symm⟩⟩
  · rintro ⟨ht, ⟨hty, d1, d2, hcat, hne⟩ | ⟨hty, hcat, hne⟩⟩
    · exact ⟨ht.symm, Or.inl ⟨ht.symm.trans hty, d2, d1, hcat.symm, fun h => hne h.symm⟩⟩
    · exact ⟨ht.symm, Or.inr ⟨ht.symm.trans hty, hcat.symm, fun h => hne h.symm⟩⟩

/-- Claim C2: two facts of the same case are flagged as contradicting by the
Conflict Detector (`_facts_may_conflict`) exactly when they share a
`fact_type` and either (type `date`, both `fact_date` populated, equal
categories, different dates) or (type `party`, equal categories, different
`fact_text`, case-sensitively); pairs of every other fact type are never
flagged. -/
theorem facts_may_conflict_iff (fact1 fact2 : CaseFact) :
    facts_may_conflict fact1 fact2 = true ↔
      (fact1.fact_type = fact2.fact_type ∧
        ((fact1.fact_type = "date" ∧ fact1.fact_date.isSome ∧ fact2.fact_date.isSome
            ∧ fact1.category = fact2.category ∧ fact1.fact_date ≠ fact2.fact_date)
          ∨ (fact1.fact_type = "party" ∧ fact1.category = fact2.category
            ∧ fact1.fact_text ≠ fact2.fact_text))) :=
  conflict_iff_aux fact1 fact2

/-! ### Concrete fixtures used by the witness theorems -/

/-- The default compliance configuration of `backend/config.py`
(`min_citation_confidence = 0.95`, written as `mkRat 95 100` so the kernel
can evaluate comparisons against it). -/
def sampleSettings : Settings :=
  { citation_required := true
    min_citation_confidence := mkRat 95 100
    allowed_citation_domains := ["legislation.gov.uk", "bailii.org", "judiciary.uk"]
    primary_model := "mixtral:8x7b-instruct-v0.1-q4_0" }

/-- A policy-passing citation with confidence 0.99. -/
def citGood : Citation :=
  { source := some "https://legislation.gov.uk/ukpga/1996/18", confidence := some (mkRat 99 100) }

/-- A policy-passing citation with confidence 0.95. -/
def citGood2 : Citation :=
  { source := some "https://bailii.org/ew/cases/1", confidence := some (mkRat 95 100) }

/-- Confidence 0.99 but a source outside the domain allow-list. -/
def citBadDomain : Citation :=
  { source := some "https://randomsite.com/x", confidence := some (mkRat 99 100) }

/-- An allow-listed source but confidence 0.80, below the threshold. -/
def citLowConf : Citation :=
  { source := some "https://legislation.gov.uk/a", confidence := some (mkRat 80 100) }

/-- A fixture fact row. -/
def mkFact (i cid : Nat) (ftype ftext : String) (cat : Option String)
    (fdate : Option Nat) (imp : String) (so : String) (created : Nat) : CaseFact :=
  { id := i
    case_id := cid
    fact_type := ftype
    fact_text := ftext
    fact_date := fdate
    source_document_id := none
    source_page := none
    source_text := none
    extracted_by_ai := false
    extraction_model := none
    extraction_timestamp := none
    citations := none
    importance := imp
    category := cat
    tags := none
    verification_status := "verified"
    verified_by := some "solicitor-1"
    verified_at := some 0
    confidence_score := 0
    sign_off_status := so
    sign_off_by := none
    sign_off_at := none
    amendment_reason := none
    created_at := created }

/-- A store holding case 1 with no facts yet. -/
def store0 : Store :=
  { cases := [1], facts := [], relations := [], hallucination_blocks := 0,
    now := 5, next_id := 10 }

/-! ### Claim C1 -/

/-- Claim C1: with `extracted_by_ai=true` and citation enforcement enabled,
`save_fact` on an existing case fails with the citation-policy `ValueError`
whenever the citation list is empty or absent, some citation's confidence is
below `min_citation_confidence`, or some citation's source contains no
allowed domain token — persisting nothing and bumping the hallucination-block
counter by exactly one — and otherwise the gate passes and the fact is
saved. -/
theorem save_fact_citation_gate
    (s : Settings) (st : Store) (case_id : Nat) (fact_text fact_type : String)
    (sdi : Option Nat) (sp stx : Option String) (citations : Option (List Citation))
    (importance : String) (category : Option String) (tags : Option (List String))
    (user_id : Option String) (hcase : case_id ∈ st.cases)
    (henf : s.citation_required = true) :
    (((citations.getD [] = [])
        ∨ (∃ c ∈ citations.getD [], c.confidence.getD 0 < s.min_citation_confidence)
        ∨ (∃ c ∈ citations.getD [], ∀ d ∈ s.allowed_citation_domains,
            strContains (c.source.getD "") d = false)) →
      save_fact s st case_id fact_text fact_type sdi sp stx citations true importance
          category tags user_id
        = (.error .citationPolicyViolation,
           { st with hallucination_blocks := st.hallucination_blocks + 1 }))
    ∧ (¬((citations.getD [] = [])
        ∨ (∃ c ∈ citations.getD [], c.confidence.getD 0 < s.min_citation_confidence)
        ∨ (∃ c ∈ citations.getD [], ∀ d ∈ s.allowed_citation_domains,
            strContains (c.source.getD "") d = false)) →
      ∃ fact, (save_fact s st case_id fact_text fact_type sdi sp stx citations true
          importance category tags user_id).1 = Except.ok fact) := by
  have hnotin : ¬ case_id ∉ st.cases := not_not_intro hcase
  constructor
  · intro hbad
    unfold save_fact
    rw [if_neg hnotin, if_pos
      ⟨rfl, henf, Or.inr ((check_citation_false_iff s fact_text _ henf).mpr hbad)⟩]
  · intro hgood
    unfold save_fact
    rw [if_neg hnotin, if_neg ?hgate]
    · exact ⟨_, rfl⟩
    case hgate =>
      rintro ⟨-, -, hv | hc⟩
      · exact hgood (Or.inl ((listTruthy_eq_false _).mp hv))
      · exact hgood ((check_citation_false_iff s fact_text _ henf).mp hc)

/-- Witness for C1: an AI fact citing only `https://randomsite.com/x` against
the default domain allow-list is rejected, the store keeps no trace of it,
and the hallucination counter moves from 0 to 1. -/
theorem save_fact_citation_gate_witness :
    (1 ∈ store0.cases) ∧ sampleSettings.citation_required = true
    ∧ save_fact sampleSettings store0 1 "AI text" "general" none none none
        (some [citBadDomain]) true "medium" none none none
      = (.error .citationPolicyViolation,
         { store0 with hallucination_blocks := store0.hallucination_blocks + 1 }) :=
  ⟨by decide, rfl,
    (save_fact_citation_gate sampleSettings store0 1 "AI text" "general" none none none
      (some [citBadDomain]) "medium" none none none (by decide) rfl).1
      (Or.inr (Or.inr ⟨citBadDomain, List.mem_singleton_self citBadDomain, by decide⟩))⟩

/-! ### Claim C4 -/

/-- Claim C4: with `extracted_by_ai=false` on an existing case the citation
gate is skipped — the call succeeds for any citation argument, including
none at all — and the persisted fact is self-verified: `verification_status`
is `verified`, `verified_by` is the acting user, `verified_at` is now, and
the AI-extraction provenance fields stay unset. -/
theorem save_fact_manual_bypass
    (s : Settings) (st : Store) (case_id : Nat) (fact_text fact_type : String)
    (sdi : Option Nat) (sp stx : Option String) (citations : Option (List Citation))
    (importance : String) (category : Option String) (tags : Option (List String))
    (user_id : Option String) (hcase : case_id ∈ st.cases) :
    ∃ fact st',
      save_fact s st case_id fact_text fact_type sdi sp stx citations false importance
          category tags user_id = (Except.ok fact, st')
        ∧ fact.verification_status = "verified"
        ∧ fact.verified_by = user_id
        ∧ fact.verified_at = some st.now
        ∧ fact.extraction_model = none
        ∧ fact.extraction_timestamp = none := by
  have hnotin : ¬ case_id ∉ st.cases := not_not_intro hcase
  unfold save_fact
  rw [if_neg hnotin, if_neg ?hgate]
  · exact ⟨_, _, rfl, rfl, rfl, rfl, rfl, rfl⟩
  case hgate =>
    rintro ⟨hfalse, -⟩
    exact Bool.false_ne_true hfalse

/-- Witness for C4: a manual fact with no citations is accepted into case 1
of `store0` as a verified entry attributed to the acting user. -/
theorem save_fact_manual_bypass_witness :
    (1 ∈ store0.cases)
    ∧ ∃ fact st',
      save_fact sampleSettings store0 1 "Client is Mr Smith" "party" none none none
          none false "medium" none none (some "solicitor-1") = (Except.ok fact, st')
        ∧ fact.verification_status = "verified"
        ∧ fact.verified_by = some "solicitor-1"
        ∧ fact.verified_at = some store0.now
        ∧ fact.extraction_model = none
        ∧ fact.extraction_timestamp = none :=
  ⟨by decide,
    save_fact_manual_bypass sampleSettings store0 1 "Client is Mr Smith" "party" none
      none none none "medium" none none (some "solicitor-1") (by decide)⟩

/-! ### Claim C8 -/

/-- Claim C8: every fact accepted by `save_fact` carries as
`confidence_score` the arithmetic mean of its own citations' confidences,
and `0` when the citation list is empty or absent. -/
theorem save_fact_confidence_mean
    (s : Settings) (st : Store) (case_id : Nat) (fact_text fact_type : String)
    (sdi : Option Nat) (sp stx : Option String) (citations : Option (List Citation))
    (extracted_by_ai : Bool) (importance : String) (category : Option String)
    (tags : Option (List String)) (user_id : Option String) (fact : CaseFact) (st' : Store)
    (h : save_fact s st case_id fact_text fact_type sdi sp stx citations extracted_by_ai
        importance category tags user_id = (Except.ok fact, st')) :
    (citations.getD [] = [] → fact.confidence_score = 0)
    ∧ (citations.getD [] ≠ [] →
        fact.confidence_score
          = ((citations.getD []).map (fun c => c.confidence.getD 0)).sum
              / ((citations.getD []).length : ℚ)) := by
  unfold save_fact at h
  by_cases hc : case_id ∉ st.cases
  · rw [if_pos hc] at h
    simp at h
  · rw [if_neg hc] at h
    by_cases hg : (extracted_by_ai = true ∧ s.citation_required = true
        ∧ (listTruthy citations = false
          ∨ check_citation s fact_text (citations.getD []) = false))
    · rw [if_pos hg] at h
      simp at h
    · rw [if_neg hg] at h
      simp only [Prod.mk.injEq, Except.ok.injEq] at h
      obtain ⟨hf, -⟩ := h
      subst hf
      constructor
      · intro hnil
        show (if listTruthy citations = true
            then calculate_confidence (citations.getD []) else 0) = 0
        rw [(listTruthy_eq_false citations).mpr hnil]
        simp
      · intro hne
        have htr : listTruthy citations = true := by
          cases hx : listTruthy citations
          · exact absurd ((listTruthy_eq_false _).mp hx) hne
          · rfl
        show (if listTruthy citations = true
            then calculate_confidence (citations.getD []) else 0) = _
        rw [htr, if_pos rfl]
        have hnotempty : ¬ ((citations.getD []).isEmpty = true) := by
          simp only [List.isEmpty_iff]
          exact hne
        unfold calculate_confidence
        rw [if_neg hnotempty]

/-- The fact produced by the C8 witness call: two citations with confidence
0.95 and 0.99. -/
def factC8 : CaseFact :=
  { id := 10
    case_id := 1
    fact_type := "general"
    fact_text := "Two citations"
    fact_date := none
    source_document_id := none
    source_page := none
    source_text := none
    extracted_by_ai := true
    extraction_model := some "mixtral:8x7b-instruct-v0.1-q4_0"
    extraction_timestamp := some 5
    citations := some [citGood2, citGood]
    importance := "medium"
    category := none
    tags := none
    verification_status := "unverified"
    verified_by := none
    verified_at := none
    confidence_score := calculate_confidence [citGood2, citGood]
    sign_off_status := "suggested"
    sign_off_by := none
    sign_off_at := none
    amendment_reason := none
    created_at := 5 }

/-- The store after the C8 witness call. -/
def c8post : Store :=
  { cases := [1], facts := [factC8], relations := [], hallucination_blocks := 0,
    now := 5, next_id := 11 }

/-- Witness for C8: saving an AI fact with citations of confidence 0.95 and
0.99 yields `confidence_score = 0.97`. -/
theorem save_fact_confidence_mean_witness :
    save_fact sampleSettings store0 1 "Two citations" "general" none none none
        (some [citGood2, citGood]) true "medium" none none none
      = (Except.ok factC8, c8post)
    ∧ (((some [citGood2, citGood] : Option (List Citation)).getD [] ≠ []) →
        factC8.confidence_score
          = (((some [citGood2, citGood] : Option (List Citation)).getD []).map
              (fun c => c.confidence.getD 0)).sum
            / (((some [citGood2, citGood] : Option (List Citation)).getD []).length : ℚ))
    ∧ factC8.confidence_score = mkRat 97 100 := by
  have h : save_fact sampleSettings store0 1 "Two citations" "general" none none none
      (some [citGood2, citGood]) true "medium" none none none
      = (Except.ok factC8, c8post) := rfl
  refine ⟨h, (save_fact_confidence_mean sampleSettings store0 1 "Two citations" "general"
    none none none (some [citGood2, citGood]) true "medium" none none none
    factC8 c8post h).2, ?_⟩
  show calculate_confidence [citGood2, citGood] = mkRat 97 100
  unfold calculate_confidence citGood citGood2
  norm_num [Rat.mkRat_eq_div]

/-! ### Claim C3 -/

theorem check_fact_relations_eq (facts : List CaseFact) (fact : CaseFact) :
    check_fact_relations facts fact
      = (facts.filter (fun f => decide (f.case_id = fact.case_id ∧ f.id ≠ fact.id
          ∧ f.sign_off_status ≠ "rejected" ∧ facts_may_conflict fact f = true))).map
        (fun f => { fact_id := fact.id, related_fact_id := f.id,
                    relation_type := "contradicts", confidence := 0.8 }) := by
  induction facts with
  | nil => rfl
  | cons f fs ih =>
    simp only [check_fact_relations, similar_facts, List.filter_cons,
      decide_eq_true_eq] at ih ⊢
    by_cases h1 : (f.case_id = fact.case_id ∧ f.id ≠ fact.id
        ∧ f.fact_type = fact.fact_type ∧ f.sign_off_status ≠ "rejected")
    · by_cases h2 : facts_may_conflict fact f = true
      · rw [if_pos h1, if_pos ⟨h1.1, h1.2.1, h1.2.2.2, h2⟩, List.filterMap_cons,
          List.map_cons]
        have hd : determine_relation fact f = some "contradicts" := by
          unfold determine_relation
          rw [if_pos h2]
        rw [hd]
        simp only [Option.map_some']
        exact congrArg _ ih
      · rw [if_pos h1, if_neg (fun hq => h2 hq.2.2.2), List.filterMap_cons]
        have hd : determine_relation fact f = none := by
          unfold determine_relation
          rw [if_neg h2]
        rw [hd]
        simp only [Option.map_none']
        exact ih
    · have hq : ¬ (f.case_id = fact.case_id ∧ f.id ≠ fact.id
          ∧ f.sign_off_status ≠ "rejected" ∧ facts_may_conflict fact f = true) := by
        rintro ⟨q1, q2, q3, q4⟩
        exact h1 ⟨q1, q2, (facts_may_conflict_same_type q4).symm, q3⟩
      rw [if_neg h1, if_neg hq]
      exact ih

/-- Claim C3: a successful `save_fact` appends the new fact and one
`contradicts` relation for every existing non-rejected fact of the same case
that the conflict heuristic flags against it, all in the same commit; on any
failure neither the fact nor any relation is persisted. -/
theorem save_fact_relations_atomic
    (s : Settings) (st : Store) (case_id : Nat) (fact_text fact_type : String)
    (sdi : Option Nat) (sp stx : Option String) (citations : Option (List Citation))
    (extracted_by_ai : Bool) (importance : String) (category : Option String)
    (tags : Option (List String)) (user_id : Option String) :
    (∀ fact st', save_fact s st case_id fact_text fact_type sdi sp stx citations
          extracted_by_ai importance category tags user_id = (Except.ok fact, st') →
        st'.facts = st.facts ++ [fact]
        ∧ st'.relations = st.relations
            ++ (st.facts.filter (fun f => decide (f.case_id = fact.case_id ∧ f.id ≠ fact.id
                ∧ f.sign_off_status ≠ "rejected" ∧ facts_may_conflict fact f = true))).map
              (fun f => { fact_id := fact.id, related_fact_id := f.id,
                          relation_type := "contradicts", confidence := 0.8 }))
    ∧ (∀ e st', save_fact s st case_id fact_text fact_type sdi sp stx citations
          extracted_by_ai importance category tags user_id = (Except.error e, st') →
        st'.facts = st.facts ∧ st'.relations = st.relations) := by
  constructor
  · intro fact st' h
    unfold save_fact at h
    by_cases hc : case_id ∉ st.cases
    · rw [if_pos hc] at h
      simp at h
    · rw [if_neg hc] at h
      by_cases hg : (extracted_by_ai = true ∧ s.citation_required = true
          ∧ (listTruthy citations = false
            ∨ check_citation s fact_text (citations.getD []) = false))
      · rw [if_pos hg] at h
        simp at h
      · rw [if_neg hg] at h
        simp only [Prod.mk.injEq, Except.ok.injEq] at h
        obtain ⟨hf, hs⟩ := h
        subst hf
        subst hs
        exact ⟨rfl, by rw [check_fact_relations_eq]⟩
  · intro e st' h
    unfold save_fact at h
    by_cases hc : case_id ∉ st.cases
    · rw [if_pos hc] at h
      simp only [Prod.mk.injEq] at h
      obtain ⟨-, hs⟩ := h
      subst hs
      exact ⟨rfl, rfl⟩
    · rw [if_neg hc] at h
      by_cases hg : (extracted_by_ai = true ∧ s.citation_required = true
          ∧ (listTruthy citations = false
            ∨ check_citation s fact_text (citations.getD []) = false))
      · rw [if_pos hg] at h
        simp only [Prod.mk.injEq] at h
        obtain ⟨-, hs⟩ := h
        subst hs
        exact ⟨rfl, rfl⟩
      · rw [if_neg hg] at h
        simp at h

/-- An existing party fact of case 1 naming Smith as claimant. -/
def factSmith : CaseFact :=
  mkFact 2 1 "party" "Claimant is Smith" (some "claimant") none "medium" "suggested" 1

/-- A store holding case 1 with the Smith party fact on file. -/
def store1 : Store :=
  { cases := [1], facts := [factSmith], relations := [], hallucination_blocks := 0,
    now := 5, next_id := 11 }

/-- The fact produced by the C3 witness call. -/
def factC3 : CaseFact :=
  { id := 11
    case_id := 1
    fact_type := "party"
    fact_text := "Claimant is Jones"
    fact_date := none
    source_document_id := none
    source_page := none
    source_text := none
    extracted_by_ai := false
    extraction_model := none
    extraction_timestamp := none
    citations := none
    importance := "medium"
    category := some "claimant"
    tags := none
    verification_status := "verified"
    verified_by := some "solicitor-1"
    verified_at := some 5
    confidence_score := 0
    sign_off_status := "suggested"
    sign_off_by := none
    sign_off_at := none
    amendment_reason := none
    created_at := 5 }

/-- The store after the C3 witness call: the Jones fact plus one
`contradicts` relation against the Smith fact, in one commit. -/
def c3post : Store :=
  { cases := [1]
    facts := [factSmith, factC3]
    relations := [{ fact_id := 11, related_fact_id := 2,
                    relation_type := "contradicts", confidence := 0.8 }]
    hallucination_blocks := 0
    now := 5
    next_id := 12 }

/-- Witness for C3: saving a conflicting party fact into `store1` persists
the fact together with exactly the one `contradicts` relation. -/
theorem save_fact_relations_atomic_witness :
    save_fact sampleSettings store1 1 "Claimant is Jones" "party" none none none
        none false "medium" (some "claimant") none (some "solicitor-1")
      = (Except.ok factC3, c3post)
    ∧ c3post.facts = store1.facts ++ [factC3]
    ∧ c3post.relations = store1.relations
        ++ (store1.facts.filter (fun f => decide (f.case_id = factC3.case_id
            ∧ f.id ≠ factC3.id ∧ f.sign_off_status ≠ "rejected"
            ∧ facts_may_conflict factC3 f = true))).map
          (fun f => { fact_id := factC3.id, related_fact_id := f.id,
                      relation_type := "contradicts", confidence := 0.8 }) := by
  have h : save_fact sampleSettings store1 1 "Claimant is Jones" "party" none none none
      none false "medium" (some "claimant") none (some "solicitor-1")
      = (Except.ok factC3, c3post) := rfl
  exact ⟨h, (save_fact_relations_atomic sampleSettings store1 1 "Claimant is Jones"
    "party" none none none none false "medium" (some "claimant") none
    (some "solicitor-1")).1 factC3 c3post h⟩

/-! ### Claim C5 -/

/-- Claim C5: `verify_fact` fails with `FactNotFound` when the fact id is
unknown and with `InvalidStatus` when the status is outside
`{verified, disputed}`, leaving the store untouched on failure; otherwise it
succeeds regardless of the fact's current sign-off state, setting
`verification_status`, `verified_by`, `verified_at` and (when a truthy reason
is supplied) `amendment_reason`.  `sign_off_fact` behaves the same way with
the status set `{accepted, amended, rejected}` and the `sign_off_*` fields. -/
theorem verify_sign_off_status_rules (st : Store) (fid : Nat) (status user : String)
    (reason : Option String) :
    (st.facts.find? (fun f => decide (f.id = fid)) = none →
        verify_fact st fid status user reason = (Except.error FactError.factNotFound, st)
        ∧ sign_off_fact st fid status user reason = (Except.error FactError.factNotFound, st))
    ∧ (∀ fact, st.facts.find? (fun f => decide (f.id = fid)) = some fact →
        (status ∉ (["verified", "disputed"] : List String) →
            verify_fact st fid status user reason = (Except.error FactError.invalidStatus, st))
        ∧ (status ∈ (["verified", "disputed"] : List String) →
            ∃ fact' st', verify_fact st fid status user reason = (Except.ok fact', st')
              ∧ fact'.verification_status = status
              ∧ fact'.verified_by = some user
              ∧ fact'.verified_at = some st.now
              ∧ fact'.sign_off_status = fact.sign_off_status
              ∧ (strTruthy reason = true → fact'.amendment_reason = reason)
              ∧ (strTruthy reason = false → fact'.amendment_reason = fact.amendment_reason))
        ∧ (status ∉ (["accepted", "amended", "rejected"] : List String) →
            sign_off_fact st fid status user reason = (Except.error FactError.invalidStatus, st))
        ∧ (status ∈ (["accepted", "amended", "rejected"] : List String) →
            ∃ fact' st', sign_off_fact st fid status user reason = (Except.ok fact', st')
              ∧ fact'.sign_off_status = status
              ∧ fact'.sign_off_by = some user
              ∧ fact'.sign_off_at = some st.now
              ∧ fact'.verification_status = fact.verification_status
              ∧ (strTruthy reason = true → fact'.amendment_reason = reason)
              ∧ (strTruthy reason = false → fact'.amendment_reason = fact.amendment_reason))) := by
  constructor
  · intro hnone
    unfold verify_fact sign_off_fact
    rw [hnone]
    exact ⟨rfl, rfl⟩
  · intro fact hsome
    refine ⟨?_, ?_, ?_, ?_⟩
    · intro hnotmem
      unfold verify_fact
      simp only [hsome]
      rw [if_pos hnotmem]
    · intro hmem
      unfold verify_fact
      simp only [hsome]
      rw [if_neg (not_not_intro hmem)]
      refine ⟨_, _, rfl, rfl, rfl, rfl, rfl, ?_, ?_⟩
      · intro htr
        show (if strTruthy reason = true then reason else fact.amendment_reason) = reason
        rw [htr]
        simp
      · intro hfls
        show (if strTruthy reason = true then reason else fact.amendment_reason)
          = fact.amendment_reason
        rw [hfls]
        simp
    · intro hnotmem
      unfold sign_off_fact
      simp only [hsome]
      rw [if_pos hnotmem]
    · intro hmem
      unfold sign_off_fact
      simp only [hsome]
      rw [if_neg (not_not_intro hmem)]
      refine ⟨_, _, rfl, rfl, rfl, rfl, rfl, ?_, ?_⟩
      · intro htr
        show (if strTruthy reason = true then reason else fact.amendment_reason) = reason
        rw [htr]
        simp
      · intro hfls
        show (if strTruthy reason = true then reason else fact.amendment_reason)
          = fact.amendment_reason
        rw [hfls]
        simp

/-- Witness for C5: on `store1` (fact id 2 on file), disputing fact 2
succeeds and sets the verification fields, an unknown status is rejected
with the store untouched, signing off fact 2 as amended succeeds, and fact
99 yields `FactNotFound` for both operations. -/
theorem verify_sign_off_status_rules_witness :
    (store1.facts.find? (fun f => decide (f.id = 2)) = some factSmith)
    ∧ (∃ fact' st', verify_fact store1 2 "disputed" "u2" none = (Except.ok fact', st')
        ∧ fact'.verification_status = "disputed"
        ∧ fact'.verified_by = some "u2"
        ∧ fact'.verified_at = some store1.now
        ∧ fact'.sign_off_status = factSmith.sign_off_status
        ∧ (strTruthy none = true → fact'.amendment_reason = none)
        ∧ (strTruthy none = false → fact'.amendment_reason = factSmith.amendment_reason))
    ∧ verify_fact store1 2 "nonsense" "u2" none = (Except.error FactError.invalidStatus, store1)
    ∧ (∃ fact' st', sign_off_fact store1 2 "amended" "u2" (some "typo fixed")
          = (Except.ok fact', st')
        ∧ fact'.sign_off_status = "amended"
        ∧ fact'.sign_off_by = some "u2"
        ∧ fact'.sign_off_at = some store1.now
        ∧ fact'.verification_status = factSmith.verification_status
        ∧ (strTruthy (some "typo fixed") = true → fact'.amendment_reason = some "typo fixed")
        ∧ (strTruthy (some "typo fixed") = false →
            fact'.amendment_reason = factSmith.amendment_reason))
    ∧ verify_fact store1 99 "verified" "u2" none
        = (Except.error FactError.factNotFound, store1) :=
  ⟨rfl,
    ((verify_sign_off_status_rules store1 2 "disputed" "u2" none).2 factSmith rfl).2.1
      (by decide),
    ((verify_sign_off_status_rules store1 2 "nonsense" "u2" none).2 factSmith rfl).1
      (by decide),
    ((verify_sign_off_status_rules store1 2 "amended" "u2" (some "typo fixed")).2 factSmith
      rfl).2.2.2 (by decide),
    ((verify_sign_off_status_rules store1 99 "verified" "u2" none).1 rfl).1⟩

/-! ### Claim C6 -/

theorem insertLe_perm (le : CaseFact → CaseFact → Bool) (f : CaseFact) (l : List CaseFact) :
    (insertLe le f l).Perm (f :: l) := by
  induction l with
  | nil => exact List.Perm.refl _
  | cons g gs ih =>
    unfold insertLe
    by_cases h : le f g = true
    · rw [if_pos h]
    · rw [if_neg h]
      exact (ih.cons g).trans (List.Perm.swap f g gs)

theorem sortByLe_perm (le : CaseFact → CaseFact → Bool) (l : List CaseFact) :
    (sortByLe le l).Perm l := by
  induction l with
  | nil => exact List.Perm.refl _
  | cons f fs ih =>
    exact (insertLe_perm le f (sortByLe le fs)).trans (ih.cons f)

theorem mem_get_case_facts (st : Store) (case_id : Nat) (ft vs imp : Option String)
    (ir : Bool) (f : CaseFact) :
    f ∈ get_case_facts st case_id ft vs imp ir ↔
      f ∈ st.facts ∧ f.case_id = case_id
        ∧ (strTruthy ft = true → f.fact_type = ft.getD "")
        ∧ (strTruthy vs = true → f.verification_status = vs.getD "")
        ∧ (strTruthy imp = true → f.importance = imp.getD "")
        ∧ (ir = false → f.sign_off_status ≠ "rejected") := by
  unfold get_case_facts
  rw [(sortByLe_perm _ _).mem_iff, List.mem_filter]
  simp only [decide_eq_true_eq]

theorem mem_get_critical_dates (st : Store) (case_id : Nat) (f : CaseFact) :
    f ∈ get_critical_dates st case_id ↔
      f ∈ st.facts ∧ f.case_id = case_id ∧ f.fact_type = "date"
        ∧ (f.importance = "critical" ∨ f.importance = "high")
        ∧ f.sign_off_status ≠ "rejected" := by
  unfold get_critical_dates
  rw [(sortByLe_perm _ _).mem_iff, List.mem_filter]
  simp only [decide_eq_true_eq]

theorem scan_ignores_rejected (l : List CaseFact) (fact : CaseFact) :
    check_fact_relations l fact
      = check_fact_relations (l.filter (fun g => decide (g.sign_off_status ≠ "rejected")))
          fact := by
  unfold check_fact_relations
  congr 1
  unfold similar_facts
  rw [List.filter_filter]
  refine (List.filter_congr (fun a _ => ?_)).symm
  by_cases hr : a.sign_off_status = "rejected"
  · simp [hr]
  · simp [hr]

/-- Claim C6: a sign-off-rejected fact is never removed from the store by any
operation, but it is invisible to `get_case_facts` unless `include_rejected`
is set, invisible to `get_critical_dates`, and ignored by the conflict scan
that `save_fact` runs against existing facts. -/
theorem rejected_fact_excluded (st : Store) (f : CaseFact)
    (hmem : f ∈ st.facts) (hrej : f.sign_off_status = "rejected") :
    (∀ case_id ft vs imp, f ∉ get_case_facts st case_id ft vs imp false)
    ∧ f ∈ get_case_facts st f.case_id none none none true
    ∧ (∀ case_id, f ∉ get_critical_dates st case_id)
    ∧ (∀ fact, check_fact_relations st.facts fact
        = check_fact_relations
            (st.facts.filter (fun g => decide (g.sign_off_status ≠ "rejected"))) fact)
    ∧ (∀ fid status user reason, ∃ g,
        g ∈ (verify_fact st fid status user reason).2.facts ∧ g.id = f.id)
    ∧ (∀ fid status user reason, ∃ g,
        g ∈ (sign_off_fact st fid status user reason).2.facts ∧ g.id = f.id)
    ∧ (∀ s case_id ftext ftype sdi sp stx cits eba imp cat tags uid, ∃ g,
        g ∈ (save_fact s st case_id ftext ftype sdi sp stx cits eba imp
            cat tags uid).2.facts ∧ g.id = f.id) := by
  refine ⟨?_, ?_, ?_, fun fact => scan_ignores_rejected st.facts fact, ?_, ?_, ?_⟩
  · intro case_id ft vs imp hin
    exact ((mem_get_case_facts st case_id ft vs imp false f).mp hin).2.2.2.2.2 rfl hrej
  · exact (mem_get_case_facts st f.case_id none none none true f).mpr
      ⟨hmem, rfl, fun h => absurd h (by decide), fun h => absurd h (by decide),
        fun h => absurd h (by decide), fun h => absurd h (by decide)⟩
  · intro case_id hin
    exact ((mem_get_critical_dates st case_id f).mp hin).2.2.2.2 hrej
  · intro fid status user reason
    unfold verify_fact
    cases hfind : st.facts.find? (fun x => decide (x.id = fid)) with
    | none =>
      simp only [hfind]
      exact ⟨f, hmem, rfl⟩
    | some fact =>
      simp only [hfind]
      by_cases hv : status ∉ (["verified", "disputed"] : List String)
      · rw [if_pos hv]
        exact ⟨f, hmem, rfl⟩
      · rw [if_neg hv]
        have hfid : fact.id = fid := by
          have := List.find?_some hfind
          simpa using this
        by_cases hid : f.id = fid
        · refine ⟨_, List.mem_map_of_mem _ hmem, ?_⟩
          rw [if_pos hid]
          simpa [hfid] using hid.symm
        · refine ⟨_, List.mem_map_of_mem _ hmem, ?_⟩
          rw [if_neg hid]
  · intro fid status user reason
    unfold sign_off_fact
    cases hfind : st.facts.find? (fun x => decide (x.id = fid)) with
    | none =>
      simp only [hfind]
      exact ⟨f, hmem, rfl⟩
    | some fact =>
      simp only [hfind]
      by_cases hv : status ∉ (["accepted", "amended", "rejected"] : List String)
      · rw [if_pos hv]
        exact ⟨f, hmem, rfl⟩
      · rw [if_neg hv]
        have hfid : fact.id = fid := by
          have := List.find?_some hfind
          simpa using this
        by_cases hid : f.id = fid
        · refine ⟨_, List.mem_map_of_mem _ hmem, ?_⟩
          rw [if_pos hid]
          simpa [hfid] using hid.symm
        · refine ⟨_, List.mem_map_of_mem _ hmem, ?_⟩
          rw [if_neg hid]
  · intro s case_id ftext ftype sdi sp stx cits eba imp cat tags uid
    unfold save_fact
    by_cases hc : case_id ∉ st.cases
    · rw [if_pos hc]
      exact ⟨f, hmem, rfl⟩
    · rw [if_neg hc]
      by_cases hg : (eba = true ∧ s.citation_required = true
          ∧ (listTruthy cits = false ∨ check_citation s ftext (cits.getD []) = false))
      · rw [if_pos hg]
        exact ⟨f, hmem, rfl⟩
      · rw [if_neg hg]
        exact ⟨f, List.mem_append_left _ hmem, rfl⟩

/-- A rejected party fact of case 1. -/
def factRejected : CaseFact :=
  mkFact 3 1 "party" "Claimant is Brown" (some "claimant") none "medium" "rejected" 2

/-- A store holding case 1 with one live fact and one rejected fact. -/
def storeR : Store :=
  { cases := [1], facts := [factSmith, factRejected], relations := [],
    hallucination_blocks := 0, now := 6, next_id := 20 }

/-- Witness for C6: the rejected Brown fact is invisible to the default
listing and to critical dates, visible with `include_rejected`, ignored by
the conflict scan, and still present (by id) after a sign-off call. -/
theorem rejected_fact_excluded_witness :
    (factRejected ∈ storeR.facts ∧ factRejected.sign_off_status = "rejected")
    ∧ factRejected ∉ get_case_facts storeR 1 none none none false
    ∧ factRejected ∈ get_case_facts storeR factRejected.case_id none none none true
    ∧ factRejected ∉ get_critical_dates storeR 1
    ∧ check_fact_relations storeR.facts factC3
        = check_fact_relations
            (storeR.facts.filter (fun g => decide (g.sign_off_status ≠ "rejected"))) factC3
    ∧ (∃ g, g ∈ (sign_off_fact storeR 3 "accepted" "u" none).2.facts
        ∧ g.id = factRejected.id) := by
  have h := rejected_fact_excluded storeR factRejected (by decide) rfl
  exact ⟨⟨by decide, rfl⟩, h.1 1 none none none, h.2.1, h.2.2.1 1, h.2.2.2.1 factC3,
    h.2.2.2.2.2.1 3 "accepted" "u" none⟩

/-! ### Claim C9 -/

theorem scan_sound {a b : CaseFact} : ∀ {l : List CaseFact},
    (a, b) ∈ conflict_scan l → a ∈ l ∧ b ∈ l ∧ facts_may_conflict a b = true := by
  intro l
  induction l with
  | nil => intro h; cases h
  | cons f fs ih =>
    intro h
    rcases List.mem_append.mp h with hblk | hrest
    · obtain ⟨g, hg, heq⟩ := List.mem_map.mp hblk
      obtain ⟨hgmem, hgc⟩ := List.mem_filter.mp hg
      obtain ⟨rfl, rfl⟩ : f = a ∧ g = b := Prod.mk.injEq .. ▸ heq
      exact ⟨List.mem_cons_self .., List.mem_cons_of_mem _ hgmem, hgc⟩
    · obtain ⟨ha, hb, hc⟩ := ih hrest
      exact ⟨List.mem_cons_of_mem _ ha, List.mem_cons_of_mem _ hb, hc⟩

theorem scan_mem_iff {a b : CaseFact} : ∀ {l : List CaseFact},
    (a, b) ∈ conflict_scan l ↔ ([a, b].Sublist l ∧ facts_may_conflict a b = true) := by
  intro l
  induction l with
  | nil => simp [conflict_scan]
  | cons f fs ih =>
    simp only [conflict_scan, List.mem_append]
    constructor
    · rintro (hblk | hrest)
      · obtain ⟨g, hg, heq⟩ := List.mem_map.mp hblk
        obtain ⟨hgmem, hgc⟩ := List.mem_filter.mp hg
        obtain ⟨rfl, rfl⟩ : f = a ∧ g = b := Prod.mk.injEq .. ▸ heq
        exact ⟨(List.singleton_sublist.mpr hgmem).cons₂ _, hgc⟩
      · obtain ⟨hs, hc⟩ := ih.mp hrest
        exact ⟨hs.cons f, hc⟩
    · rintro ⟨hs, hc⟩
      cases hs with
      | cons _ h' => exact Or.inr (ih.mpr ⟨h', hc⟩)
      | cons₂ _ h' =>
        exact Or.inl (List.mem_map.mpr
          ⟨b, List.mem_filter.mpr ⟨List.singleton_sublist.mp h', hc⟩, rfl⟩)

theorem scan_nodup : ∀ {l : List CaseFact}, l.Nodup → (conflict_scan l).Nodup := by
  intro l
  induction l with
  | nil => intro _; simp [conflict_scan]
  | cons f fs ih =>
    intro hnd
    obtain ⟨hf, hnd'⟩ := List.nodup_cons.mp hnd
    refine List.Nodup.append ?_ (ih hnd') ?_
    · refine (hnd'.filter _).map ?_
      intro x y hxy
      exact congrArg Prod.snd hxy
    · intro p hp1 hp2
      obtain ⟨g, -, heq⟩ := List.mem_map.mp hp1
      obtain ⟨ha, -, -⟩ := scan_sound (a := p.1) (b := p.2) (by simpa using hp2)
      have hpf : p.1 = f := by rw [← heq]
      exact hf (hpf ▸ ha)

theorem sublist_pair_nodup {a b : CaseFact} : ∀ {l : List CaseFact}, l.Nodup →
    [a, b].Sublist l → [b, a].Sublist l → a = b := by
  intro l
  induction l with
  | nil =>
    intro _ h1 _
    simp at h1
  | cons f fs ih =>
    intro hnd h1 h2
    obtain ⟨hf, hnd'⟩ := List.nodup_cons.mp hnd
    cases h1 with
    | cons _ h1' =>
      cases h2 with
      | cons _ h2' => exact ih hnd' h1' h2'
      | cons₂ _ h2' =>
        exact absurd (h1'.subset (by simp)) hf
    | cons₂ _ h1' =>
      cases h2 with
      | cons _ h2' =>
        exact absurd (h2'.subset (by simp)) hf
      | cons₂ _ h2' => rfl

theorem pair_sublist_of_mem {a b : CaseFact} : ∀ {l : List CaseFact},
    a ∈ l → b ∈ l → a ≠ b → [a, b].Sublist l ∨ [b, a].Sublist l := by
  intro l
  induction l with
  | nil => intro ha; cases ha
  | cons f fs ih =>
    intro ha hb hne
    rcases List.mem_cons.mp ha with rfl | ha'
    · rcases List.mem_cons.mp hb with rfl | hb'
      · exact absurd rfl hne
      · exact Or.inl ((List.singleton_sublist.mpr hb').cons₂ a)
    · rcases List.mem_cons.mp hb with rfl | hb'
      · exact Or.inr ((List.singleton_sublist.mpr ha').cons₂ b)
      · rcases ih ha' hb' hne with h | h
        · exact Or.inl (h.cons f)
        · exact Or.inr (h.cons f)

/-- Claim C9: `find_conflicting_facts` is a read-only, idempotent query: it
returns the store unchanged, a second call returns the same pair list, every
returned pair consists of two listed (non-rejected) facts that the heuristic
flags, and — when the stored rows are distinct — each unordered conflicting
pair appears exactly once (in one orientation, with no duplicates). -/
theorem find_conflicting_facts_spec (st : Store) (case_id : Nat) :
    (find_conflicting_facts st case_id).2 = st
    ∧ (find_conflicting_facts ((find_conflicting_facts st case_id).2) case_id).1
        = (find_conflicting_facts st case_id).1
    ∧ (∀ p, p ∈ (find_conflicting_facts st case_id).1 →
        p.1 ∈ get_case_facts st case_id none none none false
        ∧ p.2 ∈ get_case_facts st case_id none none none false
        ∧ facts_may_conflict p.1 p.2 = true)
    ∧ ((st.facts.map (fun f => f.id)).Nodup →
        (find_conflicting_facts st case_id).1.Nodup
        ∧ (∀ a b, a ∈ get_case_facts st case_id none none none false →
            b ∈ get_case_facts st case_id none none none false → a ≠ b →
            facts_may_conflict a b = true →
            ((a, b) ∈ (find_conflicting_facts st case_id).1
              ∨ (b, a) ∈ (find_conflicting_facts st case_id).1)
            ∧ ¬((a, b) ∈ (find_conflicting_facts st case_id).1
              ∧ (b, a) ∈ (find_conflicting_facts st case_id).1))) := by
  refine ⟨rfl, rfl, ?_, ?_⟩
  · rintro ⟨a, b⟩ hp
    exact scan_sound hp
  · intro hndids
    have hnd : (get_case_facts st case_id none none none false).Nodup := by
      unfold get_case_facts
      exact (sortByLe_perm _ _).nodup_iff.mpr ((List.Nodup.of_map _ hndids).filter _)
    refine ⟨scan_nodup hnd, ?_⟩
    intro a b ha hb hne hc
    constructor
    · rcases pair_sublist_of_mem ha hb hne with h | h
      · exact Or.inl (scan_mem_iff.mpr ⟨h, hc⟩)
      · exact Or.inr (scan_mem_iff.mpr ⟨h, (facts_may_conflict_comm b a).trans hc⟩)
    · rintro ⟨h1, h2⟩
      obtain ⟨hs1, -⟩ := scan_mem_iff.mp h1
      obtain ⟨hs2, -⟩ := scan_mem_iff.mp h2
      exact hne (sublist_pair_nodup hnd hs1 hs2)

/-- A second live party fact of case 1, conflicting with the Smith fact. -/
def factJones : CaseFact :=
  mkFact 4 1 "party" "Claimant is Jones" (some "claimant") none "medium" "suggested" 3

/-- A store holding case 1 with the two conflicting party facts. -/
def storeC9 : Store :=
  { cases := [1], facts := [factSmith, factJones], relations := [],
    hallucination_blocks := 0, now := 7, next_id := 30 }

/-- Witness for C9: on a case with two conflicting party facts the scan
leaves the store unchanged, repeats identically, and reports the unordered
Smith/Jones pair in exactly one orientation with no duplicates. -/
theorem find_conflicting_facts_spec_witness :
    (find_conflicting_facts storeC9 1).2 = storeC9
    ∧ (find_conflicting_facts ((find_conflicting_facts storeC9 1).2) 1).1
        = (find_conflicting_facts storeC9 1).1
    ∧ (find_conflicting_facts storeC9 1).1.Nodup
    ∧ (((factSmith, factJones) ∈ (find_conflicting_facts storeC9 1).1
        ∨ (factJones, factSmith) ∈ (find_conflicting_facts storeC9 1).1)
      ∧ ¬((factSmith, factJones) ∈ (find_conflicting_facts storeC9 1).1
        ∧ (factJones, factSmith) ∈ (find_conflicting_facts storeC9 1).1)) := by
  have h := find_conflicting_facts_spec storeC9 1
  have hnd := h.2.2.2 (by decide)
  exact ⟨h.1, h.2.1, hnd.1,
    hnd.2 factSmith factJones (by decide) (by decide) (by decide) (by decide)⟩

/-! ### Claim C10 -/

/-- Claim C10: `verify_fact` and `sign_off_fact` impose no guard on the
fact's current state — any status in the operation's allowed set succeeds on
any existing fact — and in particular a fact signed off as `rejected` can
then be signed off as `accepted`, after which it is back in the default
`get_case_facts` listing and in the comparison set of `save_fact`'s conflict
scan. -/
theorem relation_of_conflict (facts : List CaseFact) (nf g : CaseFact)
    (hg : g ∈ facts) (hcase : g.case_id = nf.case_id) (hid : g.id ≠ nf.id)
    (htype : g.fact_type = nf.fact_type) (hrej : g.sign_off_status ≠ "rejected")
    (hconf : facts_may_conflict nf g = true) :
    ∃ r, r ∈ check_fact_relations facts nf ∧ r.related_fact_id = g.id := by
  refine ⟨{ fact_id := nf.id, related_fact_id := g.id,
            relation_type := "contradicts", confidence := 0.8 }, ?_, rfl⟩
  apply List.mem_filterMap.mpr
  refine ⟨g, List.mem_filter.mpr ⟨hg, ?_⟩, ?_⟩
  · simp only [decide_eq_true_eq]
    exact ⟨hcase, hid, htype, hrej⟩
  · unfold determine_relation
    rw [if_pos hconf]
    rfl

theorem no_transition_guard (st : Store) (f : CaseFact) (hmem : f ∈ st.facts)
    (user : String) (reason : Option String) :
    (∀ status, status ∈ (["verified", "disputed"] : List String) →
        ∃ f' st', verify_fact st f.id status user reason = (Except.ok f', st'))
    ∧ (∀ status, status ∈ (["accepted", "amended", "rejected"] : List String) →
        ∃ f' st', sign_off_fact st f.id status user reason = (Except.ok f', st'))
    ∧ (∀ f1 st1 f2 st2,
        sign_off_fact st f.id "rejected" user reason = (Except.ok f1, st1) →
        sign_off_fact st1 f.id "accepted" user reason = (Except.ok f2, st2) →
        f2.sign_off_status = "accepted"
        ∧ f2 ∈ st2.facts
        ∧ f2 ∈ get_case_facts st2 f2.case_id none none none false
        ∧ (∀ nf, nf.case_id = f2.case_id → nf.fact_type = f2.fact_type →
            nf.id ≠ f2.id → facts_may_conflict nf f2 = true →
            ∃ r, r ∈ check_fact_relations st2.facts nf ∧ r.related_fact_id = f2.id)) := by
  have hfind : ∀ st' : Store, f ∈ st'.facts →
      ∃ fact, st'.facts.find? (fun x => decide (x.id = f.id)) = some fact := by
    intro st' hm
    have : (st'.facts.find? (fun x => decide (x.id = f.id))).isSome := by
      rw [List.find?_isSome]
      exact ⟨f, hm, by simp⟩
    exact Option.isSome_iff_exists.mp this
  refine ⟨?_, ?_, ?_⟩
  · intro status hstatus
    obtain ⟨fact, hf⟩ := hfind st hmem
    unfold verify_fact
    simp only [hf]
    rw [if_neg (not_not_intro hstatus)]
    exact ⟨_, _, rfl⟩
  · intro status hstatus
    obtain ⟨fact, hf⟩ := hfind st hmem
    unfold sign_off_fact
    simp only [hf]
    rw [if_neg (not_not_intro hstatus)]
    exact ⟨_, _, rfl⟩
  · intro f1 st1 f2 st2 h1 h2
    unfold sign_off_fact at h2
    cases hfind2 : st1.facts.find? (fun x => decide (x.id = f.id)) with
    | none =>
      simp only [hfind2] at h2
      simp at h2
    | some fact2 =>
      simp only [hfind2] at h2
      rw [if_neg (not_not_intro (by decide :
        ("accepted" : String) ∈ (["accepted", "amended", "rejected"] : List String)))] at h2
      simp only [Prod.mk.injEq, Except.ok.injEq] at h2
      obtain ⟨hf2, hst2⟩ := h2
      have hid2 : fact2.id = f.id := by
        have := List.find?_some hfind2
        simpa using this
      have hmem2 : fact2 ∈ st1.facts := List.mem_of_find?_eq_some hfind2
      subst hf2
      subst hst2
      set u : CaseFact :=
        { fact2 with
            sign_off_status := "accepted"
            sign_off_by := some user
            sign_off_at := some st1.now
            amendment_reason :=
              if strTruthy reason = true then reason else fact2.amendment_reason } with hu
      have hsgn : u.sign_off_status = "accepted" := by rw [hu]
      have h0 : u ∈ st1.facts.map (fun x => if x.id = f.id then u else x) := by
        have h1 := List.mem_map_of_mem (fun x => if x.id = f.id then u else x) hmem2
        simpa [hid2] using h1
      refine ⟨hsgn, h0, ?_, ?_⟩
      · rw [mem_get_case_facts]
        refine ⟨h0, rfl, fun h => absurd h (by decide), fun h => absurd h (by decide),
          fun h => absurd h (by decide), fun _ => ?_⟩
        rw [hsgn]
        decide
      · intro nf hcase htype hne hconf
        exact relation_of_conflict _ nf u h0 hcase.symm (fun hh => hne hh.symm)
          htype.symm (by rw [hsgn]; decide) hconf

/-- The Smith fact after the witness chain: signed off rejected then
accepted. -/
def factSmithAccepted : CaseFact :=
  { factSmith with
      sign_off_status := "accepted"
      sign_off_by := some "u"
      sign_off_at := some 5 }

/-- The Smith fact after the first (rejecting) sign-off of the chain. -/
def factSmithRejected : CaseFact :=
  { factSmith with
      sign_off_status := "rejected"
      sign_off_by := some "u"
      sign_off_at := some 5 }

/-- `store1` after the rejecting sign-off. -/
def storeMid : Store := { store1 with facts := [factSmithRejected] }

/-- `store1` after rejecting then accepting the Smith fact. -/
def storeAccepted : Store := { store1 with facts := [factSmithAccepted] }

/-- Witness for C10: on `store1` the Smith fact is signed off `rejected` and
then `accepted`; the resulting fact is back in the default listing and the
conflict scan pairs a new conflicting party fact against it. -/
theorem no_transition_guard_witness :
    factSmith ∈ store1.facts
    ∧ (∃ f' st', sign_off_fact store1 2 "rejected" "u" none = (Except.ok f', st'))
    ∧ (factSmithAccepted.sign_off_status = "accepted"
        ∧ factSmithAccepted ∈ storeAccepted.facts
        ∧ factSmithAccepted ∈ get_case_facts storeAccepted factSmithAccepted.case_id
            none none none false
        ∧ (∃ r, r ∈ check_fact_relations storeAccepted.facts factC3
            ∧ r.related_fact_id = factSmithAccepted.id)) := by
  have h := no_transition_guard store1 factSmith (by decide) "u" none
  have hchain := h.2.2 factSmithRejected storeMid factSmithAccepted storeAccepted rfl rfl
  exact ⟨by decide, h.2.1 "rejected" (by decide),
    hchain.1, hchain.2.1, hchain.2.2.1,
    hchain.2.2.2 factC3 rfl rfl (by decide) (by decide)⟩

/-! ### Claim C7 -/

/-- A bulk candidate carrying a policy-passing citation. -/
def candGood : FactData :=
  { text := "AI fact", ftype := none, page := none, source_text := none,
    citations := some [citGood], importance := none, category := none, tags := none }

/-- A bulk candidate with no citations at all. -/
def candNoCit : FactData :=
  { text := "No citations", ftype := none, page := none, source_text := none,
    citations := none, importance := none, category := none, tags := none }

/-- Counterexample for C7: the claim says the `CaseNotFound` condition is not
converted and is still surfaced synchronously, but `bulk_extract_facts`
catches every per-candidate `ValueError` — including the case-existence
failure.  Submitting one well-cited candidate against the nonexistent case 99
returns the ordinary synchronous payload `{extracted = 0, failed = 1}` with
the store untouched; no error reaches the caller. -/
theorem bulk_case_not_found_swallowed :
    (99 ∉ store0.cases)
    ∧ api_bulk_extract_facts sampleSettings store0 99 7 [candGood]
        = (BulkResponse.sync 0 1 [], store0) :=
  ⟨by decide, rfl⟩

theorem bulk_saved_le (s : Settings) (case_id document_id : Nat) :
    ∀ (fds : List FactData) (st : Store),
      (bulk_extract_go s case_id document_id fds st).1.length
        ≤ (fds.filter (fun fd => listTruthy fd.citations)).length := by
  intro fds
  induction fds with
  | nil =>
    intro st
    simp [bulk_extract_go]
  | cons fd rest ih =>
    intro st
    rw [bulk_extract_go]
    by_cases hcit : listTruthy fd.citations = false
    · rw [if_pos hcit, List.filter_cons, if_neg (by simp [hcit])]
      exact ih st
    · rw [if_neg hcit, List.filter_cons,
        if_pos (show listTruthy fd.citations = true by
          revert hcit; cases listTruthy fd.citations <;> simp)]
      rcases hres : save_fact s st case_id fd.text (fd.ftype.getD "general")
          (some document_id) fd.page fd.source_text fd.citations true
          (fd.importance.getD "medium") fd.category (some (fd.tags.getD [])) none
        with ⟨r, st'⟩
      cases r with
      | ok fact =>
        simp only [hres]
        simpa using Nat.succ_le_succ (ih st')
      | error e =>
        simp only [hres]
        exact Nat.le_succ_of_le (ih st')

theorem bulk_no_case (s : Settings) (case_id document_id : Nat) :
    ∀ (fds : List FactData) (st : Store), case_id ∉ st.cases →
      bulk_extract_go s case_id document_id fds st = ([], st) := by
  intro fds
  induction fds with
  | nil =>
    intro st _
    rfl
  | cons fd rest ih =>
    intro st hnc
    rw [bulk_extract_go]
    by_cases hcit : listTruthy fd.citations = false
    · rw [if_pos hcit]
      exact ih st hnc
    · rw [if_neg hcit]
      have hsave : save_fact s st case_id fd.text (fd.ftype.getD "general")
          (some document_id) fd.page fd.source_text fd.citations true
          (fd.importance.getD "medium") fd.category (some (fd.tags.getD [])) none
          = (Except.error FactError.caseNotFound, st) := by
        unfold save_fact
        rw [if_pos hnc]
      rw [hsave]
      exact ih st hnc

/-- Claim C7 (amended): for a batch of at most ten candidates the endpoint
always answers with the synchronous payload — saved facts plus
`failed = submitted - saved` — converting every per-candidate failure
(missing citations, citation-policy rejection, and also `CaseNotFound`) into
the failure count instead of propagating it; in particular on a nonexistent
case nothing is saved and every candidate counts as failed. -/
theorem bulk_extract_failure_semantics
    (s : Settings) (st : Store) (case_id document_id : Nat) (fds : List FactData)
    (hlen : fds.length ≤ 10) :
    ∃ saved st',
      api_bulk_extract_facts s st case_id document_id fds
        = (BulkResponse.sync saved.length (fds.length - saved.length) saved, st')
      ∧ saved.length ≤ (fds.filter (fun fd => listTruthy fd.citations)).length
      ∧ (case_id ∉ st.cases → saved = [] ∧ st' = st) := by
  unfold api_bulk_extract_facts
  rw [if_neg (by omega : ¬ fds.length > 10)]
  refine ⟨(bulk_extract_facts s st case_id document_id fds).1,
    (bulk_extract_facts s st case_id document_id fds).2, rfl,
    bulk_saved_le s case_id document_id fds st, ?_⟩
  intro hnc
  unfold bulk_extract_facts
  rw [bulk_no_case s case_id document_id fds st hnc]
  exact ⟨rfl, rfl⟩

/-- Witness for C7 (amended): two candidates — one without citations, one
well-cited — against existing case 1 stay within the synchronous path with
`failed = submitted - saved`. -/
theorem bulk_extract_failure_semantics_witness :
    ([candNoCit, candGood] : List FactData).length ≤ 10
    ∧ ∃ saved st',
      api_bulk_extract_facts sampleSettings store0 1 7 [candNoCit, candGood]
        = (BulkResponse.sync saved.length
            (([candNoCit, candGood] : List FactData).length - saved.length) saved, st')
      ∧ saved.length
          ≤ (([candNoCit, candGood] : List FactData).filter
              (fun fd => listTruthy fd.citations)).length
      ∧ (1 ∉ store0.cases → saved = [] ∧ st' = store0) :=
  ⟨by decide,
    bulk_extract_failure_semantics sampleSettings store0 1 7 [candNoCit, candGood]
      (by decide)⟩

end SolicitorBrain
